import Mathlib

/-!
# Bathyscaphe: the indexer pipeline and the configuration API

A shallow embedding of `internal/indexer/indexer.go` and of the two HTTP
handlers exercised by `internal/configapi/configapi_test.go`.

Go code that talks to collaborators through interfaces (the event
subscriber, the index driver, the configuration client, the process
provider, the cache, the publisher) is embedded by explicit state passing:
every collaborator method is a function of the receiver, its arguments and
an external state of an arbitrary type `σ`, and every invocation is
recorded, in program order, in a call trace.
-/

namespace Bathyscaphe

/-! ## Go values -/

/-- A Go byte slice, by value. -/
abbrev Bytes := List UInt8

/-- A Go `time.Time`, kept as an uninterpreted instant. -/
abbrev Time := Int

/-- A Go `map[string]string`, as an association list. -/
abbrev StringMap := List (String × String)

/-- A non-nil Go `error` as the `fmt` and `errors` packages build it:
`errorString` is what `errors.New` and a `fmt.Errorf` without `%w` return,
`wrapError` is what a `fmt.Errorf` with one `%w` returns. A nil `error` is
`none : Option GoError`. -/
inductive GoError where
  | errorString (s : String)
  | wrapError (msg : String) (err : GoError)
  deriving DecidableEq, Repr

namespace GoError

/-- The method `Error() string`. -/
def Error : GoError → String
  | errorString s => s
  | wrapError msg _ => msg

/-- The method `Unwrap() error`, as `errors.Unwrap` sees it. -/
def Unwrap : GoError → Option GoError
  | errorString _ => none
  | wrapError _ err => some err

end GoError

/-- The function `errors.Is(err, target)`: walks the `Unwrap` chain of `err`
and compares each link with `target`. Go compares the two pointers; the
embedding compares the values. -/
def errorsIs (err target : GoError) : Bool :=
  if err = target then true
  else
    match err with
    | .errorString _ => false
    | .wrapError _ inner => errorsIs inner target

/-- The value a Go `interface{}` holds in a message header. -/
inductive HeaderValue where
  | str (s : String)
  | int (n : Int)
  | bool (b : Bool)
  deriving DecidableEq, Repr

/-- The struct `event.RawMessage`, with the two fields the test file
`configapi_test.go` builds it from: `Body []byte` and
`Headers map[string]interface{}`. -/
structure RawMessage where
  Body : Bytes
  Headers : List (String × HeaderValue)
  deriving DecidableEq, Repr

/-- Modelled from the spec: the struct `event.NewResourceEvent`, whose
declaration is not among the sources. The spec gives `url` (string), `time`
(capture timestamp), `body` (raw payload) and `headers` (string to string
mapping); the field names are the ones `indexer.go` reads. -/
structure NewResourceEvent where
  URL : String
  Time : Time
  Body : Bytes
  Headers : StringMap
  deriving DecidableEq, Repr

/-- One line written through `zerolog`: level, string fields, message. -/
structure LogEntry where
  level : String
  fields : StringMap
  msg : String
  deriving DecidableEq, Repr

/-- How a Go call ends: it returns its `error` result (nil is `none`), or it
panics on a nil interface value. -/
inductive Outcome where
  | returned (err : Option GoError)
  | panicked
  deriving DecidableEq, Repr

namespace Indexer

/-! ## Collaborators of the indexer -/

/-- A non-nil `event.Subscriber` interface value, by identity. -/
structure Subscriber where
  id : Nat
  deriving DecidableEq, Repr

/-- A non-nil `configapi.Client` interface value, by identity. -/
structure Client where
  id : Nat
  deriving DecidableEq, Repr

/-- A non-nil `index.Index` interface value, by identity. -/
structure Index where
  id : Nat
  deriving DecidableEq, Repr

/-- A non-nil `process.Provider` interface value, by identity. -/
structure Provider where
  id : Nat
  deriving DecidableEq, Repr

/-- The declarations `indexer.go` imports from the rest of the repository,
taken as parameters: two constants, and the behaviour of each collaborator
method as a function of the receiver, the arguments and the external state.
`Read` returns what it left in `evt` together with its error; `NewIndex` and
`ConfigClient` return an interface value (`none` is nil) and an error. -/
structure Deps (σ : Type) where
  NewResourceExchange : String
  ForbiddenHostnamesKey : String
  Read : Subscriber → RawMessage → σ → (NewResourceEvent × Option GoError) × σ
  CheckHostnameAllowed : Option Client → String → σ → (Bool × Option GoError) × σ
  IndexResource : Index → String → Time → Bytes → StringMap → σ → Option GoError × σ
  NewIndex : String → String → σ → (Option Index × Option GoError) × σ
  GetValue : Provider → String → σ → String × σ
  ConfigClient : Provider → List String → σ → (Option Client × Option GoError) × σ

/-- One invocation of a collaborator, with the arguments it received. -/
inductive Call where
  | read (subscriber : Subscriber) (msg : RawMessage)
  | checkHostnameAllowed (client : Option Client) (url : String)
  | indexResource (index : Index) (url : String) (time : Time) (body : Bytes)
      (headers : StringMap)
  | newIndex (driver : String) (dest : String)
  | getValue (provider : Provider) (key : String)
  | configClient (provider : Provider) (keys : List String)
  deriving DecidableEq, Repr

/-- Everything outside the indexer: the external state, the trace of
collaborator invocations so far (oldest first) and the log lines written. -/
structure World (σ : Type) where
  ext : σ
  calls : List Call
  logs : List LogEntry

variable {σ : Type}

/-- Invoke `subscriber.Read(&msg, &evt)`. -/
def callRead (deps : Deps σ) (subscriber : Subscriber) (msg : RawMessage) (w : World σ) :
    (NewResourceEvent × Option GoError) × World σ :=
  let r := deps.Read subscriber msg w.ext
  (r.1, { w with ext := r.2, calls := w.calls ++ [Call.read subscriber msg] })

/-- Invoke `constraint.CheckHostnameAllowed(client, url)`. -/
def callCheckHostnameAllowed (deps : Deps σ) (client : Option Client) (url : String)
    (w : World σ) : (Bool × Option GoError) × World σ :=
  let r := deps.CheckHostnameAllowed client url w.ext
  (r.1, { w with ext := r.2, calls := w.calls ++ [Call.checkHostnameAllowed client url] })

/-- Invoke `index.IndexResource(url, time, body, headers)`. -/
def callIndexResource (deps : Deps σ) (index : Index) (url : String) (time : Time)
    (body : Bytes) (headers : StringMap) (w : World σ) : Option GoError × World σ :=
  let r := deps.IndexResource index url time body headers w.ext
  (r.1, { w with ext := r.2,
                 calls := w.calls ++ [Call.indexResource index url time body headers] })

/-- Invoke `index.NewIndex(driver, dest)`. -/
def callNewIndex (deps : Deps σ) (driver dest : String) (w : World σ) :
    (Option Index × Option GoError) × World σ :=
  let r := deps.NewIndex driver dest w.ext
  (r.1, { w with ext := r.2, calls := w.calls ++ [Call.newIndex driver dest] })

/-- Invoke `provider.GetValue(key)`. -/
def callGetValue (deps : Deps σ) (provider : Provider) (key : String) (w : World σ) :
    String × World σ :=
  let r := deps.GetValue provider key w.ext
  (r.1, { w with ext := r.2, calls := w.calls ++ [Call.getValue provider key] })

/-- Invoke `provider.ConfigClient(keys)`. -/
def callConfigClient (deps : Deps σ) (provider : Provider) (keys : List String)
    (w : World σ) : (Option Client × Option GoError) × World σ :=
  let r := deps.ConfigClient provider keys w.ext
  (r.1, { w with ext := r.2, calls := w.calls ++ [Call.configClient provider keys] })

/-- Write one `log.Info().Str(key, value).Msg(msg)` line. -/
def logInfoStr (key value msg : String) (w : World σ) : World σ :=
  { w with logs := w.logs ++ [{ level := "info", fields := [(key, value)], msg := msg }] }

/-! ## indexer.go -/

/-- The package variable `errHostnameNotAllowed`
(`fmt.Errorf("hostname is not allowed")`). -/
def errHostnameNotAllowed : GoError := .errorString "hostname is not allowed"

/-- The struct `State`; the zero value has nil interfaces and an empty driver
name. -/
structure State where
  index : Option Index
  indexDriver : String
  configClient : Option Client
  deriving DecidableEq, Repr

/-- The method `State.Name`. -/
def Name (_state : State) : String := "indexer"

/-- The method `State.handleNewResourceEvent`. The three `fmt` calls are
spelled out: `%s` of a string is the string, `%s` and `%w` of an error are
its `Error()` text, and only `%w` keeps the operand as the wrapped error. -/
def handleNewResourceEvent (deps : Deps σ) (state : State) (subscriber : Subscriber)
    (msg : RawMessage) (w : World σ) : Outcome × World σ :=
  let r1 := callRead deps subscriber msg w
  match r1.1.2 with
  | some err => (.returned (some err), r1.2)
  | none =>
    let evt := r1.1.1
    let r2 := callCheckHostnameAllowed deps state.configClient evt.URL r1.2
    if !r2.1.1 || r2.1.2.isSome then
      (.returned (some (.wrapError (evt.URL ++ " " ++ errHostnameNotAllowed.Error)
        errHostnameNotAllowed)), r2.2)
    else
      match state.index with
      | none => (.panicked, r2.2)
      | some idx =>
        let r3 := callIndexResource deps idx evt.URL evt.Time evt.Body evt.Headers r2.2
        match r3.1 with
        | some err =>
          (.returned (some (.errorString ("error while indexing resource: " ++ err.Error))),
            r3.2)
        | none =>
          (.returned none, logInfoStr "url" evt.URL "Successfully indexed resource" r3.2)

/-- The struct `process.SubscriberDef`, with the three fields `indexer.go`
sets. -/
structure SubscriberDef (σ : Type) where
  Exchange : String
  Queue : String
  Handler : Subscriber → RawMessage → World σ → Outcome × World σ

/-- The method `State.Subscribers`; `fmt.Sprintf("%sIndexingQueue", d)` is
`d` followed by the literal text. -/
def Subscribers (deps : Deps σ) (state : State) : List (SubscriberDef σ) :=
  [{ Exchange := deps.NewResourceExchange,
     Queue := state.indexDriver ++ "IndexingQueue",
     Handler := handleNewResourceEvent deps state }]

/-- The method `State.Initialize`: returns its error and the state the
receiver is left in. -/
def Initialize (deps : Deps σ) (state : State) (provider : Provider) (w : World σ) :
    (Option GoError × State) × World σ :=
  let r1 := callGetValue deps provider "index-driver" w
  let indexDriver := r1.1
  let r2 := callGetValue deps provider "index-dest" r1.2
  let r3 := callNewIndex deps indexDriver r2.1 r2.2
  match r3.1.2 with
  | some err => ((some err, state), r3.2)
  | none =>
    let state1 : State := { state with index := r3.1.1, indexDriver := indexDriver }
    let r4 := callConfigClient deps provider [deps.ForbiddenHostnamesKey] r3.2
    match r4.1.2 with
    | some err => ((some err, state1), r4.2)
    | none => ((none, { state1 with configClient := r4.1.1 }), r4.2)

end Indexer

namespace ConfigAPI

/-! ## Collaborators of the configuration API -/

/-- A non-nil `cache.Cache` interface value, by identity. -/
structure Cache where
  id : Nat
  deriving DecidableEq, Repr

/-- A non-nil `event.Publisher` interface value, by identity. -/
structure Publisher where
  id : Nat
  deriving DecidableEq, Repr

/-- Modelled from the spec: the expiry argument of `SetBytes`, whose type is
not among the sources. The spec: a duration, or a sentinel meaning "never
expires"; the test file names the sentinel `cache.NoTTL`. -/
inductive TTL where
  | NoTTL
  | expiresAfter (nanoseconds : Nat)
  deriving DecidableEq, Repr

/-- The collaborator methods the test file mocks, as functions of the
receiver, the arguments and the external state: `Cache.GetBytes`,
`Cache.SetBytes` and `Publisher.PublishJSON`. -/
structure Deps (σ : Type) where
  GetBytes : Cache → String → σ → (Bytes × Option GoError) × σ
  SetBytes : Cache → String → Bytes → TTL → σ → Option GoError × σ
  PublishJSON : Publisher → String → RawMessage → σ → Option GoError × σ

/-- One invocation of a collaborator, with the arguments it received. -/
inductive Call where
  | getBytes (cache : Cache) (key : String)
  | setBytes (cache : Cache) (key : String) (value : Bytes) (ttl : TTL)
  | publishJSON (pub : Publisher) (exchange : String) (msg : RawMessage)
  deriving DecidableEq, Repr

/-- Everything outside the configuration API: the external state and the
trace of collaborator invocations so far (oldest first). -/
structure World (σ : Type) where
  ext : σ
  calls : List Call

/-- What the test file reads back from the `httptest.ResponseRecorder`:
status code, header map and body. -/
structure Response where
  Code : Nat
  Header : StringMap
  Body : Bytes
  deriving DecidableEq, Repr

/-- The method `Header.Get`: the value stored under `key`, or the empty
string. -/
def Response.headerGet (r : Response) (key : String) : String :=
  (r.Header.lookup key).getD ""

variable {σ : Type}

/-- Invoke `cache.GetBytes(key)`. -/
def callGetBytes (deps : Deps σ) (cache : Cache) (key : String) (w : World σ) :
    (Bytes × Option GoError) × World σ :=
  let r := deps.GetBytes cache key w.ext
  (r.1, { ext := r.2, calls := w.calls ++ [Call.getBytes cache key] })

/-- Invoke `cache.SetBytes(key, value, ttl)`. -/
def callSetBytes (deps : Deps σ) (cache : Cache) (key : String) (value : Bytes) (ttl : TTL)
    (w : World σ) : Option GoError × World σ :=
  let r := deps.SetBytes cache key value ttl w.ext
  (r.1, { ext := r.2, calls := w.calls ++ [Call.setBytes cache key value ttl] })

/-- Invoke `pub.PublishJSON(exchange, msg)`. -/
def callPublishJSON (deps : Deps σ) (pub : Publisher) (exchange : String) (msg : RawMessage)
    (w : World σ) : Option GoError × World σ :=
  let r := deps.PublishJSON pub exchange msg w.ext
  (r.1, { ext := r.2, calls := w.calls ++ [Call.publishJSON pub exchange msg] })

/-! ## The two handlers of configapi.go -/

/-- Modelled from the spec: the handler `getConfiguration` lives in
`configapi.go`, which is not among the sources (only its test is). The spec,
section 4.3: "looks up `key` in Cache; on hit returns the raw bytes verbatim
with content-type `application/json` and status 200; on cache error surfaces
an HTTP 5xx". The response to a failure is the parameter `errorResponse`: the
spec fixes only that its status is an error status. -/
def getConfiguration (deps : Deps σ) (errorResponse : GoError → Response) (cache : Cache)
    (key : String) (w : World σ) : Response × World σ :=
  let r := callGetBytes deps cache key w
  match r.1.2 with
  | some err => (errorResponse err, r.2)
  | none =>
    ({ Code := 200, Header := [("Content-Type", "application/json")], Body := r.1.1 }, r.2)

/-- Modelled from the spec: the handler `setConfiguration` lives in
`configapi.go`, which is not among the sources (only its test is). The spec,
section 4.3: "stores `body` in Cache under `key` with no expiry, then
publishes a ConfigChangeEvent on the "config" exchange with header
`Config-Key=key` and body equal to the stored bytes, then echoes the stored
bytes back to the caller with status 200 ... if persist fails, no event is
published"; section 7: a transport or backend error "(cache or broker
unreachable)" is "surfaced to the immediate caller; at the HTTP boundary
becomes a 5xx", and no failure is "swallowed silently"; section 6: a PUT
answers "error status on failure". The response to a failure is the
parameter `errorResponse`: the spec fixes only that its status is an error
status. -/
def setConfiguration (deps : Deps σ) (errorResponse : GoError → Response) (cache : Cache)
    (pub : Publisher) (key : String) (body : Bytes) (w : World σ) : Response × World σ :=
  let r1 := callSetBytes deps cache key body TTL.NoTTL w
  match r1.1 with
  | some err => (errorResponse err, r1.2)
  | none =>
    let r2 := callPublishJSON deps pub "config"
      { Body := body, Headers := [("Config-Key", HeaderValue.str key)] } r1.2
    match r2.1 with
    | some err => (errorResponse err, r2.2)
    | none =>
      ({ Code := 200, Header := [("Content-Type", "application/json")], Body := body }, r2.2)

end ConfigAPI

/-! ## Sample collaborators

Concrete collaborators on which the statements below are evaluated. The
external state of the indexer samples is the list of URLs the driver has
stored. -/

namespace Indexer

/-- A sample environment. `Read` decodes the URL from the header `url` and
fails without it; the policy check fails its lookup for client 0 and denies
`http://evil.example/page` otherwise; the driver refuses an empty body and
stores the URL otherwise; the registry knows the drivers `local` and
`elastic`; provider 0 is configured for `local`, provider 1 for `elastic`,
every other provider for `mystery`. -/
def sampleDeps : Deps (List String) where
  NewResourceExchange := "resource.new"
  ForbiddenHostnamesKey := "forbidden-hostnames"
  Read := fun _ msg s =>
    match msg.Headers.lookup "url" with
    | some (HeaderValue.str u) =>
      (({ URL := u, Time := 1600000000, Body := msg.Body, Headers := [("Server", "nginx")] },
        none), s)
    | _ =>
      (({ URL := "", Time := 0, Body := [], Headers := [] },
        some (GoError.errorString "unexpected end of JSON input")), s)
  CheckHostnameAllowed := fun client url s =>
    if client = some ⟨0⟩ then ((true, some (GoError.errorString "connection refused")), s)
    else ((url != "http://evil.example/page", none), s)
  IndexResource := fun _ url _ body _ s =>
    if body = [] then (some (GoError.errorString "empty document"), s) else (none, s ++ [url])
  NewIndex := fun driver _ s =>
    if driver = "local" then ((some ⟨1⟩, none), s)
    else if driver = "elastic" then ((some ⟨2⟩, none), s)
    else ((none, some (GoError.errorString "no driver named mystery")), s)
  GetValue := fun provider key s =>
    if key = "index-driver" then
      (if provider.id = 0 then "local" else if provider.id = 1 then "elastic" else "mystery", s)
    else ("/var/lib/index", s)
  ConfigClient := fun _ _ s => ((some ⟨7⟩, none), s)

/-- A sample state after a successful start with the driver `local`. -/
def sampleState : State := { index := some ⟨1⟩, indexDriver := "local", configClient := some ⟨7⟩ }

/-- The sample state with a configuration client whose lookups fail. -/
def sampleStateDown : State :=
  { index := some ⟨1⟩, indexDriver := "local", configClient := some ⟨0⟩ }

/-- A sample world: one URL stored, nothing traced or logged yet. -/
def sampleWorld : World (List String) := { ext := ["http://first.example/"], calls := [], logs := [] }

/-- A message for the URL `url` with a two-byte body. -/
def sampleMsg (url : String) : RawMessage :=
  { Body := [104, 105], Headers := [("url", HeaderValue.str url)] }

/-- A message that does not decode. -/
def brokenMsg : RawMessage := { Body := [123], Headers := [] }

/-- A message for an allowed URL that the driver refuses (empty body). -/
def emptyMsg : RawMessage :=
  { Body := [], Headers := [("url", HeaderValue.str "http://ok.example/page")] }

/-- The event `sampleMsg url` decodes to. -/
def sampleEvt (url : String) : NewResourceEvent :=
  { URL := url, Time := 1600000000, Body := [104, 105], Headers := [("Server", "nginx")] }

end Indexer

namespace ConfigAPI

/-- A sample environment whose external state is the content of the cache,
newest entry first. `GetBytes` fails on a missing key, `SetBytes` always
stores, and `PublishJSON` fails for publisher 0, whose broker is
unreachable. -/
def sampleDeps : Deps (List (String × Bytes)) where
  GetBytes := fun _ key s =>
    match s.lookup key with
    | some b => ((b, none), s)
    | none => (([], some (GoError.errorString "key not found")), s)
  SetBytes := fun _ key value _ s => (none, (key, value) :: s)
  PublishJSON := fun pub _ _ s =>
    if pub.id = 0 then (some (GoError.errorString "broker unreachable"), s) else (none, s)

/-- A sample failure response: status 500 with no header and no body. -/
def sampleErrorResponse (_err : GoError) : Response := { Code := 500, Header := [], Body := [] }

/-- The fourteen bytes of the JSON text the test file stores under `hello`:
an object with the one field `ttl` of value `10s`. -/
def sampleBody : Bytes := [123, 34, 116, 116, 108, 34, 58, 32, 34, 49, 48, 115, 34, 125]

/-- A sample world: an empty cache and an empty trace. -/
def emptyWorld : World (List (String × Bytes)) := { ext := [], calls := [] }

/-- A sample world whose cache holds `sampleBody` under `hello`. -/
def helloWorld : World (List (String × Bytes)) :=
  { ext := [("hello", sampleBody)], calls := [] }

end ConfigAPI

/-! ## Theorems -/

namespace Indexer

variable {σ : Type}

/-- C1 (policy gating). When `Read` decodes the message to an event `evt` and
`CheckHostnameAllowed` on `evt.URL` returns `allowed = false` or a non-nil
error (also `allowed = true` with a non-nil error), the handler returns a
non-nil error, the calls it made are exactly `Read` then
`CheckHostnameAllowed`, none of them is an `IndexResource`, and the external
state is the one `CheckHostnameAllowed` left. -/
theorem handleNewResourceEvent_policy_gate (deps : Deps σ) (state : State)
    (subscriber : Subscriber) (msg : RawMessage) (w : World σ) (evt : NewResourceEvent)
    (s1 s2 : σ) (allowed : Bool) (cerr : Option GoError)
    (hread : deps.Read subscriber msg w.ext = ((evt, none), s1))
    (hcheck : deps.CheckHostnameAllowed state.configClient evt.URL s1 = ((allowed, cerr), s2))
    (hdeny : allowed = false ∨ cerr ≠ none) :
    (∃ e, (handleNewResourceEvent deps state subscriber msg w).1 = Outcome.returned (some e)) ∧
    (handleNewResourceEvent deps state subscriber msg w).2.calls =
      w.calls ++ [Call.read subscriber msg,
                  Call.checkHostnameAllowed state.configClient evt.URL] ∧
    (∀ idx url time body headers,
      Call.indexResource idx url time body headers ∉
        [Call.read subscriber msg, Call.checkHostnameAllowed state.configClient evt.URL]) ∧
    (handleNewResourceEvent deps state subscriber msg w).2.ext = s2 := by
  have hgate : (!allowed || cerr.isSome) = true := by
    rcases hdeny with h | h
    · simp [h]
    · cases cerr with
      | none => exact absurd rfl h
      | some e => simp
  simp [handleNewResourceEvent, callRead, callCheckHostnameAllowed, hread, hcheck, hgate]

/-- Witness of C1 on the sample environment: the forbidden URL is rejected
after `Read` and `CheckHostnameAllowed`, and nothing is stored. -/
theorem handleNewResourceEvent_policy_gate_witness :
    (∃ e, (handleNewResourceEvent sampleDeps sampleState ⟨3⟩
        (sampleMsg "http://evil.example/page") sampleWorld).1 = Outcome.returned (some e)) ∧
    (handleNewResourceEvent sampleDeps sampleState ⟨3⟩
        (sampleMsg "http://evil.example/page") sampleWorld).2.calls =
      sampleWorld.calls ++ [Call.read ⟨3⟩ (sampleMsg "http://evil.example/page"),
        Call.checkHostnameAllowed sampleState.configClient
          (sampleEvt "http://evil.example/page").URL] ∧
    (∀ idx url time body headers,
      Call.indexResource idx url time body headers ∉
        [Call.read ⟨3⟩ (sampleMsg "http://evil.example/page"),
         Call.checkHostnameAllowed sampleState.configClient
          (sampleEvt "http://evil.example/page").URL]) ∧
    (handleNewResourceEvent sampleDeps sampleState ⟨3⟩
        (sampleMsg "http://evil.example/page") sampleWorld).2.ext = ["http://first.example/"] :=
  handleNewResourceEvent_policy_gate sampleDeps sampleState ⟨3⟩
    (sampleMsg "http://evil.example/page") sampleWorld (sampleEvt "http://evil.example/page")
    ["http://first.example/"] ["http://first.example/"] false none
    (by rfl) (by decide) (by decide)

/-- C4 (decode failure). When `Read` returns the non-nil error `e`, the handler
returns exactly `e`, and the world it leaves is the one `Read` left with the
single call `Read` added to the trace: neither `CheckHostnameAllowed` nor
`IndexResource` is invoked and nothing is logged. -/
theorem handleNewResourceEvent_decode_failure (deps : Deps σ) (state : State)
    (subscriber : Subscriber) (msg : RawMessage) (w : World σ) (evt : NewResourceEvent)
    (e : GoError) (s1 : σ)
    (hread : deps.Read subscriber msg w.ext = ((evt, some e), s1)) :
    handleNewResourceEvent deps state subscriber msg w =
      (Outcome.returned (some e),
        { ext := s1, calls := w.calls ++ [Call.read subscriber msg], logs := w.logs }) ∧
    (∀ client url, Call.checkHostnameAllowed client url ∉ [Call.read subscriber msg]) ∧
    (∀ idx url time body headers,
      Call.indexResource idx url time body headers ∉ [Call.read subscriber msg]) := by
  simp [handleNewResourceEvent, callRead, hread]

/-- Witness of C4 on the sample environment: a message without the `url`
header does not decode, and the handler returns the decoder's error. -/
theorem handleNewResourceEvent_decode_failure_witness :
    handleNewResourceEvent sampleDeps sampleState ⟨3⟩ brokenMsg sampleWorld =
      (Outcome.returned (some (GoError.errorString "unexpected end of JSON input")),
        { ext := ["http://first.example/"],
          calls := sampleWorld.calls ++ [Call.read ⟨3⟩ brokenMsg],
          logs := sampleWorld.logs }) ∧
    (∀ client url, Call.checkHostnameAllowed client url ∉ [Call.read ⟨3⟩ brokenMsg]) ∧
    (∀ idx url time body headers,
      Call.indexResource idx url time body headers ∉ [Call.read ⟨3⟩ brokenMsg]) :=
  handleNewResourceEvent_decode_failure sampleDeps sampleState ⟨3⟩ brokenMsg sampleWorld
    { URL := "", Time := 0, Body := [], Headers := [] }
    (GoError.errorString "unexpected end of JSON input") ["http://first.example/"] (by rfl)

/-- C3 (acknowledgement). With a non-nil index `idx` in the state, and with
`rerr`, `(allowed, cerr)` and `ierr` the results of `Read`, of
`CheckHostnameAllowed` and of `IndexResource` along the run, the handler
returns nil if and only if `rerr` is nil, `allowed` is true, `cerr` is nil and
`ierr` is nil; in every other case it returns a non-nil error. -/
theorem handleNewResourceEvent_nil_iff (deps : Deps σ) (state : State) (idx : Index)
    (subscriber : Subscriber) (msg : RawMessage) (w : World σ) (evt : NewResourceEvent)
    (rerr cerr ierr : Option GoError) (allowed : Bool) (s1 s2 s3 : σ)
    (hidx : state.index = some idx)
    (hread : deps.Read subscriber msg w.ext = ((evt, rerr), s1))
    (hcheck : deps.CheckHostnameAllowed state.configClient evt.URL s1 = ((allowed, cerr), s2))
    (hindex : deps.IndexResource idx evt.URL evt.Time evt.Body evt.Headers s2 = (ierr, s3)) :
    ((handleNewResourceEvent deps state subscriber msg w).1 = Outcome.returned none ↔
      rerr = none ∧ allowed = true ∧ cerr = none ∧ ierr = none) ∧
    (¬ (rerr = none ∧ allowed = true ∧ cerr = none ∧ ierr = none) →
      ∃ e, (handleNewResourceEvent deps state subscriber msg w).1 =
        Outcome.returned (some e)) := by
  cases rerr <;> cases allowed <;> cases cerr <;> cases ierr <;>
    simp [handleNewResourceEvent, callRead, callCheckHostnameAllowed, callIndexResource,
      logInfoStr, hidx, hread, hcheck, hindex]

/-- Witness of C3 on the sample environment: an allowed URL with a body is
decoded, passes the gate, is stored, and the handler returns nil. -/
theorem handleNewResourceEvent_nil_iff_witness :
    ((handleNewResourceEvent sampleDeps sampleState ⟨3⟩ (sampleMsg "http://ok.example/page")
        sampleWorld).1 = Outcome.returned none ↔
      (none : Option GoError) = none ∧ true = true ∧ (none : Option GoError) = none ∧
        (none : Option GoError) = none) ∧
    (¬ ((none : Option GoError) = none ∧ true = true ∧ (none : Option GoError) = none ∧
        (none : Option GoError) = none) →
      ∃ e, (handleNewResourceEvent sampleDeps sampleState ⟨3⟩
        (sampleMsg "http://ok.example/page") sampleWorld).1 = Outcome.returned (some e)) :=
  handleNewResourceEvent_nil_iff sampleDeps sampleState ⟨1⟩ ⟨3⟩
    (sampleMsg "http://ok.example/page") sampleWorld (sampleEvt "http://ok.example/page")
    none none none true ["http://first.example/"] ["http://first.example/"]
    ["http://first.example/", "http://ok.example/page"] (by rfl) (by rfl) (by decide) (by decide)

/-- C5 (driver failure). With a non-nil index in the state, when the message
decodes, the gate answers `(true, nil)` and `IndexResource` returns the
non-nil error `e`, the handler returns an error whose `Error()` text is
exactly "error while indexing resource: " followed by `e.Error()`. -/
theorem handleNewResourceEvent_index_failure (deps : Deps σ) (state : State) (idx : Index)
    (subscriber : Subscriber) (msg : RawMessage) (w : World σ) (evt : NewResourceEvent)
    (e : GoError) (s1 s2 s3 : σ)
    (hidx : state.index = some idx)
    (hread : deps.Read subscriber msg w.ext = ((evt, none), s1))
    (hcheck : deps.CheckHostnameAllowed state.configClient evt.URL s1 = ((true, none), s2))
    (hindex : deps.IndexResource idx evt.URL evt.Time evt.Body evt.Headers s2 = (some e, s3)) :
    ∃ err, (handleNewResourceEvent deps state subscriber msg w).1 =
        Outcome.returned (some err) ∧
      err.Error = "error while indexing resource: " ++ e.Error := by
  refine ⟨GoError.errorString ("error while indexing resource: " ++ e.Error), ?_, rfl⟩
  simp [handleNewResourceEvent, callRead, callCheckHostnameAllowed, callIndexResource,
    hidx, hread, hcheck, hindex]

/-- Witness of C5 on the sample environment: the driver refuses the empty
body of `emptyMsg`. -/
theorem handleNewResourceEvent_index_failure_witness :
    ∃ err, (handleNewResourceEvent sampleDeps sampleState ⟨3⟩ emptyMsg sampleWorld).1 =
        Outcome.returned (some err) ∧
      err.Error = "error while indexing resource: " ++
        (GoError.errorString "empty document").Error :=
  handleNewResourceEvent_index_failure sampleDeps sampleState ⟨1⟩ ⟨3⟩ emptyMsg sampleWorld
    { URL := "http://ok.example/page", Time := 1600000000, Body := [],
      Headers := [("Server", "nginx")] }
    (GoError.errorString "empty document") ["http://first.example/"] ["http://first.example/"]
    ["http://first.example/"] (by rfl) (by rfl) (by decide) (by decide)

/-- C9 (an allowed resource reaches the driver once). With a non-nil index
`idx` in the state, when the message decodes to `evt` and the gate answers
`(true, nil)`, the calls the handler makes are exactly `Read`, then
`CheckHostnameAllowed`, then `IndexResource`, once each, and `IndexResource`
receives `(evt.URL, evt.Time, evt.Body, evt.Headers)`, whatever it returns
(`ierr`); the external state the handler leaves is the one that single
`IndexResource` invocation left (`s3`), applied to the state the gate left. -/
theorem handleNewResourceEvent_call_sequence (deps : Deps σ) (state : State) (idx : Index)
    (subscriber : Subscriber) (msg : RawMessage) (w : World σ) (evt : NewResourceEvent)
    (ierr : Option GoError) (s1 s2 s3 : σ)
    (hidx : state.index = some idx)
    (hread : deps.Read subscriber msg w.ext = ((evt, none), s1))
    (hcheck : deps.CheckHostnameAllowed state.configClient evt.URL s1 = ((true, none), s2))
    (hindex : deps.IndexResource idx evt.URL evt.Time evt.Body evt.Headers s2 = (ierr, s3)) :
    (handleNewResourceEvent deps state subscriber msg w).2.calls =
      w.calls ++ [Call.read subscriber msg,
                  Call.checkHostnameAllowed state.configClient evt.URL,
                  Call.indexResource idx evt.URL evt.Time evt.Body evt.Headers] ∧
    (handleNewResourceEvent deps state subscriber msg w).2.ext = s3 := by
  cases ierr <;>
    simp [handleNewResourceEvent, callRead, callCheckHostnameAllowed, callIndexResource,
      logInfoStr, hidx, hread, hcheck, hindex]

/-- Witness of C9 on the sample environment: the allowed URL is handed to the
driver once, and the driver's store holds it once more than before. -/
theorem handleNewResourceEvent_call_sequence_witness :
    (handleNewResourceEvent sampleDeps sampleState ⟨3⟩ (sampleMsg "http://ok.example/page")
        sampleWorld).2.calls =
      sampleWorld.calls ++ [Call.read ⟨3⟩ (sampleMsg "http://ok.example/page"),
        Call.checkHostnameAllowed sampleState.configClient
          (sampleEvt "http://ok.example/page").URL,
        Call.indexResource ⟨1⟩ (sampleEvt "http://ok.example/page").URL
          (sampleEvt "http://ok.example/page").Time (sampleEvt "http://ok.example/page").Body
          (sampleEvt "http://ok.example/page").Headers] ∧
    (handleNewResourceEvent sampleDeps sampleState ⟨3⟩ (sampleMsg "http://ok.example/page")
        sampleWorld).2.ext = ["http://first.example/", "http://ok.example/page"] :=
  handleNewResourceEvent_call_sequence sampleDeps sampleState ⟨1⟩ ⟨3⟩
    (sampleMsg "http://ok.example/page") sampleWorld (sampleEvt "http://ok.example/page")
    none ["http://first.example/"] ["http://first.example/"]
    ["http://first.example/", "http://ok.example/page"] (by rfl) (by rfl) (by decide)
    (by decide)

/-- The handler's answer to a message that decodes and fails the policy gate. -/
theorem handleNewResourceEvent_rejected (deps : Deps σ) (state : State)
    (subscriber : Subscriber) (msg : RawMessage) (w : World σ) (evt : NewResourceEvent)
    (s1 s2 : σ) (allowed : Bool) (cerr : Option GoError)
    (hread : deps.Read subscriber msg w.ext = ((evt, none), s1))
    (hcheck : deps.CheckHostnameAllowed state.configClient evt.URL s1 = ((allowed, cerr), s2))
    (hdeny : allowed = false ∨ cerr ≠ none) :
    (handleNewResourceEvent deps state subscriber msg w).1 =
      Outcome.returned (some (GoError.wrapError (evt.URL ++ " " ++ "hostname is not allowed")
        errHostnameNotAllowed)) := by
  have hgate : (!allowed || cerr.isSome) = true := by
    rcases hdeny with h | h
    · simp [h]
    · cases cerr with
      | none => exact absurd rfl h
      | some e => simp
  simp [handleNewResourceEvent, callRead, callCheckHostnameAllowed, hread, hcheck, hgate,
    errHostnameNotAllowed, GoError.Error]

/-- C10 (shape of the rejection). For two runs of the handler, in any two
environments, whose messages decode to events with the same URL `u` and are
both rejected by the gate (by a denial or by a failed lookup), the two runs
return the same error `err`; `errors.Is(err, errHostnameNotAllowed)` holds
and `err.Error()` is `u`, a space, then "hostname is not allowed". -/
theorem handleNewResourceEvent_rejection_error (deps deps2 : Deps σ) (state state2 : State)
    (subscriber subscriber2 : Subscriber) (msg msg2 : RawMessage) (w w2 : World σ)
    (evt evt2 : NewResourceEvent) (s1 s2 t1 t2 : σ) (allowed allowed2 : Bool)
    (cerr cerr2 : Option GoError)
    (hread : deps.Read subscriber msg w.ext = ((evt, none), s1))
    (hcheck : deps.CheckHostnameAllowed state.configClient evt.URL s1 = ((allowed, cerr), s2))
    (hdeny : allowed = false ∨ cerr ≠ none)
    (hread2 : deps2.Read subscriber2 msg2 w2.ext = ((evt2, none), t1))
    (hcheck2 : deps2.CheckHostnameAllowed state2.configClient evt2.URL t1 =
      ((allowed2, cerr2), t2))
    (hdeny2 : allowed2 = false ∨ cerr2 ≠ none)
    (hurl : evt2.URL = evt.URL) :
    ∃ err, (handleNewResourceEvent deps state subscriber msg w).1 =
        Outcome.returned (some err) ∧
      (handleNewResourceEvent deps2 state2 subscriber2 msg2 w2).1 =
        Outcome.returned (some err) ∧
      errorsIs err errHostnameNotAllowed = true ∧
      err.Error = evt.URL ++ " " ++ "hostname is not allowed" := by
  refine ⟨GoError.wrapError (evt.URL ++ " " ++ "hostname is not allowed")
    errHostnameNotAllowed, ?_, ?_, ?_, rfl⟩
  · exact handleNewResourceEvent_rejected deps state subscriber msg w evt s1 s2 allowed cerr
      hread hcheck hdeny
  · rw [← hurl]
    exact handleNewResourceEvent_rejected deps2 state2 subscriber2 msg2 w2 evt2 t1 t2 allowed2
      cerr2 hread2 hcheck2 hdeny2
  · simp [errorsIs, errHostnameNotAllowed]

/-- Witness of C10 on the sample environment: the forbidden URL denied by a
working client, and the same URL met by a client whose lookup fails
(`allowed = true` with an error), give the same error. -/
theorem handleNewResourceEvent_rejection_error_witness :
    ∃ err, (handleNewResourceEvent sampleDeps sampleState ⟨3⟩
        (sampleMsg "http://evil.example/page") sampleWorld).1 = Outcome.returned (some err) ∧
      (handleNewResourceEvent sampleDeps sampleStateDown ⟨4⟩
        (sampleMsg "http://evil.example/page") sampleWorld).1 = Outcome.returned (some err) ∧
      errorsIs err errHostnameNotAllowed = true ∧
      err.Error = (sampleEvt "http://evil.example/page").URL ++ " " ++
        "hostname is not allowed" :=
  handleNewResourceEvent_rejection_error sampleDeps sampleDeps sampleState sampleStateDown
    ⟨3⟩ ⟨4⟩ (sampleMsg "http://evil.example/page") (sampleMsg "http://evil.example/page")
    sampleWorld sampleWorld (sampleEvt "http://evil.example/page")
    (sampleEvt "http://evil.example/page") ["http://first.example/"] ["http://first.example/"]
    ["http://first.example/"] ["http://first.example/"] false true none
    (some (GoError.errorString "connection refused"))
    (by rfl) (by decide) (by decide) (by rfl) (by decide) (by decide) (by rfl)

/-- Appending the same text to two strings gives equal strings only for equal
strings. -/
theorem string_append_right_cancel (a b c : String) : a ++ c = b ++ c ↔ a = b := by
  constructor
  · intro h
    have hd : (a ++ c).data = (b ++ c).data := by rw [h]
    rw [String.data_append, String.data_append] at hd
    exact String.ext (List.append_cancel_right hd)
  · intro h
    rw [h]

/-- A successful `Initialize` leaves in `indexDriver` the value the provider
gave for `index-driver`. -/
theorem Initialize_indexDriver (deps : Deps σ) (state : State) (provider : Provider)
    (w : World σ) (hok : (Initialize deps state provider w).1.1 = none) :
    (Initialize deps state provider w).1.2.indexDriver =
      (deps.GetValue provider "index-driver" w.ext).1 := by
  unfold Initialize at hok ⊢
  simp only [] at hok ⊢
  split
  · rename_i err h
    rw [h] at hok
    simp at hok
  · split <;> simp [callGetValue]

/-- C2 (queue routing). For two indexers whose `Initialize` succeeded with the
provider values `d1` and `d2` for `index-driver`: `Subscribers` returns for
each exactly one subscription, on the exchange `event.NewResourceExchange`,
with the queue name `d` followed by "IndexingQueue" and the handler
`handleNewResourceEvent`; and the two queue names are equal if and only if
`d1 = d2`. -/
theorem Subscribers_queue_routing (deps : Deps σ) (state1 state2 : State)
    (provider1 provider2 : Provider) (w1 w2 : World σ) (d1 d2 : String)
    (hd1 : (deps.GetValue provider1 "index-driver" w1.ext).1 = d1)
    (hd2 : (deps.GetValue provider2 "index-driver" w2.ext).1 = d2)
    (hok1 : (Initialize deps state1 provider1 w1).1.1 = none)
    (hok2 : (Initialize deps state2 provider2 w2).1.1 = none) :
    Subscribers deps (Initialize deps state1 provider1 w1).1.2 =
      [{ Exchange := deps.NewResourceExchange, Queue := d1 ++ "IndexingQueue",
         Handler := handleNewResourceEvent deps (Initialize deps state1 provider1 w1).1.2 }] ∧
    Subscribers deps (Initialize deps state2 provider2 w2).1.2 =
      [{ Exchange := deps.NewResourceExchange, Queue := d2 ++ "IndexingQueue",
         Handler := handleNewResourceEvent deps (Initialize deps state2 provider2 w2).1.2 }] ∧
    ((Subscribers deps (Initialize deps state1 provider1 w1).1.2).map SubscriberDef.Queue =
        (Subscribers deps (Initialize deps state2 provider2 w2).1.2).map SubscriberDef.Queue ↔
      d1 = d2) := by
  have h1 := Initialize_indexDriver deps state1 provider1 w1 hok1
  have h2 := Initialize_indexDriver deps state2 provider2 w2 hok2
  rw [hd1] at h1
  rw [hd2] at h2
  refine ⟨?_, ?_, ?_⟩
  · simp [Subscribers, h1]
  · simp [Subscribers, h2]
  · simp [Subscribers, h1, h2, string_append_right_cancel]

/-- The state `Initialize` leaves when provider 0 starts the sample
environment. -/
theorem sample_Initialize_local :
    (Initialize sampleDeps { index := none, indexDriver := "", configClient := none } ⟨0⟩
      sampleWorld).1 = (none, sampleState) := by
  decide

/-- Witness of C2 on the sample environment: provider 0 (`local`) and provider
1 (`elastic`) both start, and bind the queues `localIndexingQueue` and
`elasticIndexingQueue`. -/
theorem Subscribers_queue_routing_witness :
    Subscribers sampleDeps (Initialize sampleDeps
        { index := none, indexDriver := "", configClient := none } ⟨0⟩ sampleWorld).1.2 =
      [{ Exchange := sampleDeps.NewResourceExchange, Queue := "local" ++ "IndexingQueue",
         Handler := handleNewResourceEvent sampleDeps (Initialize sampleDeps
          { index := none, indexDriver := "", configClient := none } ⟨0⟩ sampleWorld).1.2 }] ∧
    Subscribers sampleDeps (Initialize sampleDeps
        { index := none, indexDriver := "", configClient := none } ⟨1⟩ sampleWorld).1.2 =
      [{ Exchange := sampleDeps.NewResourceExchange, Queue := "elastic" ++ "IndexingQueue",
         Handler := handleNewResourceEvent sampleDeps (Initialize sampleDeps
          { index := none, indexDriver := "", configClient := none } ⟨1⟩ sampleWorld).1.2 }] ∧
    ((Subscribers sampleDeps (Initialize sampleDeps
        { index := none, indexDriver := "", configClient := none } ⟨0⟩
          sampleWorld).1.2).map SubscriberDef.Queue =
        (Subscribers sampleDeps (Initialize sampleDeps
        { index := none, indexDriver := "", configClient := none } ⟨1⟩
          sampleWorld).1.2).map SubscriberDef.Queue ↔
      "local" = "elastic") :=
  Subscribers_queue_routing sampleDeps { index := none, indexDriver := "", configClient := none }
    { index := none, indexDriver := "", configClient := none } ⟨0⟩ ⟨1⟩ sampleWorld sampleWorld
    "local" "elastic" (by decide) (by decide) (by decide) (by decide)

/-- C6 (unknown driver). When the provider gives `d` for `index-driver` and
`dest` for `index-dest` and `index.NewIndex(d, dest)` returns the non-nil
error `e`, `Initialize` returns exactly `e`, leaves the state as it was
(`index`, `indexDriver` and `configClient` unchanged), and has made exactly
the two `GetValue` calls and the `NewIndex` call: the provider's
`ConfigClient` is never requested. -/
theorem Initialize_newIndex_failure (deps : Deps σ) (state : State) (provider : Provider)
    (w : World σ) (d dest : String) (idx : Option Index) (e : GoError) (s1 s2 s3 : σ)
    (hdriver : deps.GetValue provider "index-driver" w.ext = (d, s1))
    (hdest : deps.GetValue provider "index-dest" s1 = (dest, s2))
    (hnew : deps.NewIndex d dest s2 = ((idx, some e), s3)) :
    (Initialize deps state provider w).1.1 = some e ∧
    (Initialize deps state provider w).1.2 = state ∧
    (Initialize deps state provider w).2.calls =
      w.calls ++ [Call.getValue provider "index-driver", Call.getValue provider "index-dest",
                  Call.newIndex d dest] ∧
    (∀ p keys, Call.configClient p keys ∉
      [Call.getValue provider "index-driver", Call.getValue provider "index-dest",
       Call.newIndex d dest]) ∧
    (Initialize deps state provider w).2.ext = s3 := by
  simp [Initialize, callGetValue, callNewIndex, hdriver, hdest, hnew]

/-- Witness of C6 on the sample environment: provider 2 asks for the driver
`mystery`, which the registry does not know. -/
theorem Initialize_newIndex_failure_witness :
    (Initialize sampleDeps sampleState ⟨2⟩ sampleWorld).1.1 =
      some (GoError.errorString "no driver named mystery") ∧
    (Initialize sampleDeps sampleState ⟨2⟩ sampleWorld).1.2 = sampleState ∧
    (Initialize sampleDeps sampleState ⟨2⟩ sampleWorld).2.calls =
      sampleWorld.calls ++ [Call.getValue ⟨2⟩ "index-driver", Call.getValue ⟨2⟩ "index-dest",
                  Call.newIndex "mystery" "/var/lib/index"] ∧
    (∀ p keys, Call.configClient p keys ∉
      [Call.getValue ⟨2⟩ "index-driver", Call.getValue ⟨2⟩ "index-dest",
       Call.newIndex "mystery" "/var/lib/index"]) ∧
    (Initialize sampleDeps sampleState ⟨2⟩ sampleWorld).2.ext = ["http://first.example/"] :=
  Initialize_newIndex_failure sampleDeps sampleState ⟨2⟩ sampleWorld "mystery"
    "/var/lib/index" none (GoError.errorString "no driver named mystery")
    ["http://first.example/"] ["http://first.example/"] ["http://first.example/"]
    (by decide) (by decide) (by decide)

end Indexer

namespace ConfigAPI

variable {σ : Type}

/-- C8 (read). When `GetBytes(key)` returns `(b, nil)`, `getConfiguration`
makes the single call `GetBytes(key)` and responds with status 200, the
header `Content-Type: application/json` and the body `b`; the external state
left is the one that single `GetBytes` left (`s1`). -/
theorem getConfiguration_hit (deps : Deps σ) (errorResponse : GoError → Response)
    (cache : Cache) (key : String) (w : World σ) (b : Bytes) (s1 : σ)
    (hget : deps.GetBytes cache key w.ext = ((b, none), s1)) :
    (getConfiguration deps errorResponse cache key w).2.calls =
      w.calls ++ [Call.getBytes cache key] ∧
    (getConfiguration deps errorResponse cache key w).1.Code = 200 ∧
    (getConfiguration deps errorResponse cache key w).1.headerGet "Content-Type" =
      "application/json" ∧
    (getConfiguration deps errorResponse cache key w).1.Body = b ∧
    (getConfiguration deps errorResponse cache key w).2.ext = s1 := by
  simp [getConfiguration, callGetBytes, hget, Response.headerGet, List.lookup]

/-- Witness of C8 on the sample environment: the scenario of
`TestGetConfiguration`. -/
theorem getConfiguration_hit_witness :
    (getConfiguration sampleDeps sampleErrorResponse ⟨1⟩ "hello" helloWorld).2.calls =
      helloWorld.calls ++ [Call.getBytes ⟨1⟩ "hello"] ∧
    (getConfiguration sampleDeps sampleErrorResponse ⟨1⟩ "hello" helloWorld).1.Code = 200 ∧
    (getConfiguration sampleDeps sampleErrorResponse ⟨1⟩ "hello" helloWorld).1.headerGet
      "Content-Type" = "application/json" ∧
    (getConfiguration sampleDeps sampleErrorResponse ⟨1⟩ "hello" helloWorld).1.Body =
      sampleBody ∧
    (getConfiguration sampleDeps sampleErrorResponse ⟨1⟩ "hello" helloWorld).2.ext =
      [("hello", sampleBody)] :=
  getConfiguration_hit sampleDeps sampleErrorResponse ⟨1⟩ "hello" helloWorld sampleBody
    [("hello", sampleBody)] (by decide)

/-- C7, as stated, fails: in the sample environment `SetBytes` succeeds for the
key `hello`, the broker of publisher 0 is unreachable, and `setConfiguration`
answers with the failure response (status 500), not with status 200 and the
body. -/
theorem setConfiguration_publish_failure :
    (sampleDeps.SetBytes ⟨1⟩ "hello" sampleBody TTL.NoTTL emptyWorld.ext).1 = none ∧
    (setConfiguration sampleDeps sampleErrorResponse ⟨1⟩ ⟨0⟩ "hello" sampleBody emptyWorld).1 =
      { Code := 500, Header := [], Body := [] } ∧
    (setConfiguration sampleDeps sampleErrorResponse ⟨1⟩ ⟨0⟩ "hello" sampleBody
      emptyWorld).2.calls =
      [Call.setBytes ⟨1⟩ "hello" sampleBody TTL.NoTTL,
       Call.publishJSON ⟨0⟩ "config"
        { Body := sampleBody, Headers := [("Config-Key", HeaderValue.str "hello")] }] := by
  decide

/-- C7, amended (publish on write). When `SetBytes(key, body, NoTTL)` returns
nil, the calls `setConfiguration` makes are exactly `SetBytes(key, body,
NoTTL)` and then one `PublishJSON` on the exchange "config" with a message of
body `body` and headers `Config-Key = key` only; when that `PublishJSON`
returns nil as well, the response has status 200, the header
`Content-Type: application/json` and the body `body`; the external state left
is the one that single `PublishJSON` left (`s2`), applied to the state
`SetBytes` left. -/
theorem setConfiguration_publish_on_write (deps : Deps σ) (errorResponse : GoError → Response)
    (cache : Cache) (pub : Publisher) (key : String) (body : Bytes) (w : World σ)
    (perr : Option GoError) (s1 s2 : σ)
    (hset : deps.SetBytes cache key body TTL.NoTTL w.ext = (none, s1))
    (hpub : deps.PublishJSON pub "config"
      { Body := body, Headers := [("Config-Key", HeaderValue.str key)] } s1 = (perr, s2)) :
    (setConfiguration deps errorResponse cache pub key body w).2.calls =
      w.calls ++ [Call.setBytes cache key body TTL.NoTTL,
                  Call.publishJSON pub "config"
                    { Body := body, Headers := [("Config-Key", HeaderValue.str key)] }] ∧
    (perr = none →
      (setConfiguration deps errorResponse cache pub key body w).1.Code = 200 ∧
      (setConfiguration deps errorResponse cache pub key body w).1.headerGet "Content-Type" =
        "application/json" ∧
      (setConfiguration deps errorResponse cache pub key body w).1.Body = body) ∧
    (setConfiguration deps errorResponse cache pub key body w).2.ext = s2 := by
  cases perr <;>
    simp [setConfiguration, callSetBytes, callPublishJSON, hset, hpub, Response.headerGet,
      List.lookup]

/-- Witness of C7, amended, on the sample environment: the scenario of
`TestSetConfiguration`, with a publisher whose broker answers. -/
theorem setConfiguration_publish_on_write_witness :
    (setConfiguration sampleDeps sampleErrorResponse ⟨1⟩ ⟨1⟩ "hello" sampleBody
      emptyWorld).2.calls =
      emptyWorld.calls ++ [Call.setBytes ⟨1⟩ "hello" sampleBody TTL.NoTTL,
        Call.publishJSON ⟨1⟩ "config"
          { Body := sampleBody, Headers := [("Config-Key", HeaderValue.str "hello")] }] ∧
    ((none : Option GoError) = none →
      (setConfiguration sampleDeps sampleErrorResponse ⟨1⟩ ⟨1⟩ "hello" sampleBody
        emptyWorld).1.Code = 200 ∧
      (setConfiguration sampleDeps sampleErrorResponse ⟨1⟩ ⟨1⟩ "hello" sampleBody
        emptyWorld).1.headerGet "Content-Type" = "application/json" ∧
      (setConfiguration sampleDeps sampleErrorResponse ⟨1⟩ ⟨1⟩ "hello" sampleBody
        emptyWorld).1.Body = sampleBody) ∧
    (setConfiguration sampleDeps sampleErrorResponse ⟨1⟩ ⟨1⟩ "hello" sampleBody
      emptyWorld).2.ext = [("hello", sampleBody)] :=
  setConfiguration_publish_on_write sampleDeps sampleErrorResponse ⟨1⟩ ⟨1⟩ "hello" sampleBody
    emptyWorld none [("hello", sampleBody)] [("hello", sampleBody)] (by decide) (by decide)

end ConfigAPI

end Bathyscaphe
